import Mathlib

/-!
# Shallow embedding of the joy-clippy global-input / window-lifecycle engine

This file embeds the core of the `joy-clippy` clipboard-history utility
(`src/app.rs`, `src/window/history.rs`, `src/window/settings.rs`,
`src/utils.rs`) as executable Lean definitions and proves properties of the
embedded code.

Modelling conventions:
* Machine integers (`i32` cursors, window id counters) are `Int`/`Nat`;
  the only cast that matters is `as usize` on a possibly negative `i32`,
  which is modelled explicitly (a negative cursor indexes out of bounds).
* Rust panics (`Vec` index out of bounds, `.unwrap()`, `.expect(..)`) are
  modelled by `Option`: `none` is a panic.
* `iced` tasks are modelled as an ordered list of `TaskAction`s: either a
  follow-up `Message` fed back into the update loop, or an `Effect`
  (an external action: platform window open/close, clipboard write,
  storage call, synthetic key injection).  A fuel-indexed driver `runActs`
  processes a queue of actions depth-first: the actions produced by a
  message are processed before the rest of the queue, which models
  `Task::done(a).chain(b)` sequencing.
* External collaborators are modelled by their observable interface:
  the system clipboard is the `Option String` it currently holds
  (`get_text` fails iff `none`), the database connection is an abstract
  handle, storage calls are recorded as effects.
* `HashMap<window::Id, Window>` is an association list with distinct keys;
  `iced`'s window-id allocator is a `nextId` counter in the state.
-/

/-- `iced::keyboard::Modifiers`: four independent boolean flags
(CTRL, ALT, SHIFT, LOGO). -/
structure Modifiers where
  ctrl : Bool
  alt : Bool
  shift : Bool
  logo : Bool
deriving DecidableEq

/-- The empty modifier set (`Modifiers::empty()`). -/
def Modifiers.empty : Modifiers := ⟨false, false, false, false⟩

/-- Spec-side notion used to state the "extra modifier" rule: `a` is a
subset of `b` as flag sets. -/
def Modifiers.subset (a b : Modifiers) : Prop :=
  (a.ctrl → b.ctrl = true) ∧ (a.alt → b.alt = true) ∧
  (a.shift → b.shift = true) ∧ (a.logo → b.logo = true)

instance (a b : Modifiers) : Decidable (a.subset b) := by
  unfold Modifiers.subset; infer_instance

/-- The subset of `rdev::Key` the embedded code distinguishes.  All keys the
source matches by name are constructors; every other key is `unknown n`
(the source's `rdev::Key::Unknown(u32)` and all unmodelled names collapse
there, which is sound because the code only compares keys for equality). -/
inductive RdevKey where
  | controlLeft | controlRight
  | alt | altGr
  | shiftLeft | shiftRight
  | metaLeft | metaRight
  | f9 | keyV | keyK
  | downArrow | upArrow | escape | returnKey
  | unknown (n : Nat)
deriving DecidableEq

/-- `rdev::EventType` (mouse data payloads are irrelevant to the core and
dropped). -/
inductive EventType where
  | keyPress (key : RdevKey)
  | keyRelease (key : RdevKey)
  | buttonPress
  | buttonRelease
  | mouseMove
  | wheel
deriving DecidableEq

/-- The subset of `iced::keyboard::key::Code` the embedded code
distinguishes (the arms matched by name in `app.rs` / `utils.rs`); all
other codes collapse to `other n`. -/
inductive Code where
  | arrowDown | arrowUp | escape | enter | f9 | keyV | keyK
  | other (n : Nat)
deriving DecidableEq

/-- `iced::keyboard::key::Physical`. -/
inductive PhysicalKey where
  | code (c : Code)
  | unidentified (n : Nat)
deriving DecidableEq

/-- `iced::keyboard::key::Named`, restricted to the names the code
mentions. -/
inductive NamedKey where
  | f9
  | other (n : Nat)
deriving DecidableEq

/-- `iced::keyboard::Key` (logical key; only used for display in the
source, never inspected by the core logic). -/
inductive LogicalKey where
  | named (k : NamedKey)
  | character (s : String)
  | unidentified
deriving DecidableEq

/-- `utils::iced_key_to_rdev`, restricted to the modelled codes.  Arms of
the source table whose code collapsed into `Code.other` collapse into
`RdevKey.unknown 0`, mirroring the source's catch-all
`_ => rdev::Key::Unknown(0)`. -/
def iced_key_to_rdev : PhysicalKey → RdevKey
  | .code .arrowDown => .downArrow
  | .code .arrowUp => .upArrow
  | .code .escape => .escape
  | .code .enter => .returnKey
  | .code .f9 => .f9
  | .code .keyV => .keyV
  | .code .keyK => .keyK
  | .code (.other _) => .unknown 0
  | .unidentified n => .unknown n

/-- `app::Shortcut`. -/
structure Shortcut where
  modifiers : Modifiers
  logical_key : LogicalKey
  iced_physical_key : PhysicalKey
  rdev_key : RdevKey
deriving DecidableEq

/-- `entity::entry::Model`: a persisted clipboard entry
(`id: i32, data: String, added_at: timestamp`). -/
structure Entry where
  id : Int
  data : String
  added_at : Int
deriving DecidableEq

/-- `iced::Event`, restricted to the variants the code matches:
keyboard presses/releases (with logical key, physical key and modifiers)
and the window `Unfocused` event; everything else is `other`. -/
inductive IcedEvent where
  | keyPressed (key : LogicalKey) (physical_key : PhysicalKey) (modifiers : Modifiers)
  | keyReleased (key : LogicalKey) (physical_key : PhysicalKey) (modifiers : Modifiers)
  | unfocused
  | other
deriving DecidableEq

/-- `utils::iced_event_to_shortcut`: only a `KeyPressed` keyboard event
produces a shortcut (key releases and all other events give `none`). -/
def iced_event_to_shortcut : IcedEvent → Option Shortcut
  | .keyPressed key physical_key modifiers =>
      some ⟨modifiers, key, physical_key, iced_key_to_rdev physical_key⟩
  | _ => none

/-- The modifier-tracking step of `App::subscribe_global_event`: the match
on `event.event_type` that inserts/removes the four modifier flags.
Note the source matches `rdev::Key::Alt` alone for ALT (no `AltGr` arm),
while Ctrl/Shift/Meta have explicit Left|Right arms. -/
def trackModifiers (modifiers : Modifiers) (ev : EventType) : Modifiers :=
  match ev with
  | .keyPress key =>
      match key with
      | .controlLeft | .controlRight => { modifiers with ctrl := true }
      | .alt => { modifiers with alt := true }
      | .shiftLeft | .shiftRight => { modifiers with shift := true }
      | .metaLeft | .metaRight => { modifiers with logo := true }
      | _ => modifiers
  | .keyRelease key =>
      match key with
      | .controlLeft | .controlRight => { modifiers with ctrl := false }
      | .alt => { modifiers with alt := false }
      | .shiftLeft | .shiftRight => { modifiers with shift := false }
      | .metaLeft | .metaRight => { modifiers with logo := false }
      | _ => modifiers
  | _ => modifiers

/-- `window::history::State`.  The cursor is the source's `i32`. -/
inductive HistoryState where
  | loaded (selected_item_cursor : Int) (items : List Entry)
  | loading
deriving DecidableEq

/-- `window::history::Message`. -/
inductive HistoryMsg where
  | moveHistoryCursor (direction : Int)
  | paste
  | openSettings
deriving DecidableEq

/-- `window::settings::ShortcutSelectionState`. -/
inductive ShortcutSelectionState where
  | listening (pending : Shortcut)
  | notListening
deriving DecidableEq

/-- `window::settings::State`. -/
structure SettingsState where
  toggle_shortcut : Shortcut
  shortcut_selection_state : ShortcutSelectionState
deriving DecidableEq

/-- `window::settings::State::new`. -/
def SettingsState.new (toggle_shortcut : Shortcut) : SettingsState :=
  ⟨toggle_shortcut, .notListening⟩

/-- `window::settings::Message`. -/
inductive SettingsMsg where
  | newShortcutInput (s : Shortcut)
  | toggleShortcutSelection
deriving DecidableEq

/-- `window::Window`. -/
inductive Window where
  | history (s : HistoryState)
  | settings (s : SettingsState)
deriving DecidableEq

/-- `sea_orm::DatabaseConnection`, as an abstract handle. -/
inductive DbConn where
  | disconnected
  | connected (handle : Nat)
deriving DecidableEq

/-- `app::Message`. -/
inductive Message where
  | globalEvent (modifiers : Modifiers) (ev : EventType)
  | appEvent (id : Nat) (ev : IcedEvent)
  | requestWindowClose (id : Nat)
  | windowClose (id : Nat)
  | looseFocus (id : Nat)
  | panicMsg (s : String)
  | exitApp
  | clipboardEvent
  | requestPaste (item : Entry)
  | setClipboardItem (item : Entry)
  | simulatePaste
  | requestOpenHistoryWindow
  | requestCloseHistoryWindow
  | historyWindowLoaded (id : Nat) (items : List Entry)
  | historyWindowEvent (id : Nat) (m : HistoryMsg)
  | openSettingsWindow
  | settingsWindowEvent (id : Nat) (m : SettingsMsg)
  | dbConnection (db : DbConn)
  | updateToggleShortcut (s : Shortcut)
deriving DecidableEq

/-- External actions performed by tasks (the observable interface of the
external collaborators). -/
inductive Effect where
  | icedClose (id : Nat)
  | openWindow (id : Nat)
  | gainFocus (id : Nat)
  | loadHistory (id : Nat)
  | clipboardSet (text : String)
  | dbDelete (entryId : Int)
  | dbAdd (text : String)
  | simulate (ev : EventType)
  | exitProcess
  | logError (s : String)
deriving DecidableEq

/-- One element of a task: either a follow-up message fed back into the
update loop, or an external effect. -/
inductive TaskAction where
  | msg (m : Message)
  | eff (e : Effect)
deriving DecidableEq

/-- `window::history::State::update`.  `none` models a Rust panic:
`Paste` indexes `items[cursor as usize]`, and on an `i32` cursor the
`as usize` cast of a negative value is astronomically large, so the index
is out of bounds whenever `cursor < 0` or `cursor ≥ items.len()`. -/
def historyUpdate : HistoryState → HistoryMsg → Option (HistoryState × List TaskAction)
  | .loaded selected_item_cursor items, .moveHistoryCursor direction =>
      let c1 := selected_item_cursor + direction
      let c2 := if c1 < 0 then 0 else c1
      let c3 := if (items.length : Int) ≤ c2 then (items.length : Int) - 1 else c2
      some (.loaded c3 items, [])
  | .loading, .moveHistoryCursor _ => some (.loading, [])
  | .loaded selected_item_cursor items, .paste =>
      if selected_item_cursor < 0 then none
      else
        match items[selected_item_cursor.toNat]? with
        | some item => some (.loaded selected_item_cursor items, [.msg (.requestPaste item)])
        | none => none
  | .loading, .paste => some (.loading, [])
  | s, .openSettings => some (s, [.msg .openSettingsWindow])

/-- `window::settings::State::update`. -/
def settingsUpdate (st : SettingsState) : SettingsMsg → SettingsState × List TaskAction
  | .newShortcutInput new_shortcut =>
      match st.shortcut_selection_state with
      | .listening _ =>
          ({ st with shortcut_selection_state := .listening new_shortcut }, [])
      | .notListening => (st, [])
  | .toggleShortcutSelection =>
      match st.shortcut_selection_state with
      | .listening shortcut =>
          ({ toggle_shortcut := shortcut, shortcut_selection_state := .notListening },
           [.msg (.updateToggleShortcut shortcut)])
      | .notListening =>
          ({ st with shortcut_selection_state := .listening st.toggle_shortcut }, [])

/-- Association-list lookup, modelling `HashMap::get`. -/
def wlookup : List (Nat × Window) → Nat → Option Window
  | [], _ => none
  | (k, w) :: rest, id => if k = id then some w else wlookup rest id

/-- In-place value replacement at a key, modelling mutation through
`HashMap::get_mut` (keys are distinct, so replacing the first match is
exact). -/
def wupdate : List (Nat × Window) → Nat → Window → List (Nat × Window)
  | [], _, _ => []
  | (k, w0) :: rest, id, w =>
      if k = id then (k, w) :: rest else (k, w0) :: wupdate rest id w

/-- `HashMap::insert`: replaces the value if the key is present, otherwise
adds the binding (iteration order of a `HashMap` is arbitrary; new
bindings are appended). -/
def winsert (ws : List (Nat × Window)) (id : Nat) (w : Window) : List (Nat × Window) :=
  if (wlookup ws id).isSome then wupdate ws id w else ws ++ [(id, w)]

/-- `HashMap::remove`. -/
def wremove (ws : List (Nat × Window)) (id : Nat) : List (Nat × Window) :=
  ws.filter fun p => !(p.1 = id)

/-- `App::get_history_window_id`: the first window (in iteration order)
that is a History window. -/
def get_history_window_id : List (Nat × Window) → Option Nat
  | [] => none
  | (k, .history _) :: _ => some k
  | _ :: rest => get_history_window_id rest

/-- `app::App` (the `clipboard_context` collaborator is modelled by the
text the system clipboard currently holds; `nextId` models `iced`'s
window-id allocator). -/
structure AppState where
  clipboard : Option String
  windows : List (Nat × Window)
  db : DbConn
  toggle_shortcut : Shortcut
  nextId : Nat
deriving DecidableEq

/-- `DEFAULT_TOGGLE_MODIFIERS` (= `Modifiers::ALT`). -/
def DEFAULT_TOGGLE_MODIFIERS : Modifiers := ⟨false, true, false, false⟩

/-- `DEFAULT_TOGGLE_PHYSICAL_KEY` (= `Physical::Code(Code::F9)`). -/
def DEFAULT_TOGGLE_PHYSICAL_KEY : PhysicalKey := .code .f9

/-- `DEFAULT_TOGGLE_LOGICAL_KEY` (= `Key::Named(Named::F9)`). -/
def DEFAULT_TOGGLE_LOGICAL_KEY : LogicalKey := .named .f9

/-- The state part of `App::new` (empty window map, disconnected db,
default toggle shortcut; the modelled system clipboard starts empty). -/
def appInit : AppState where
  clipboard := none
  windows := []
  db := .disconnected
  toggle_shortcut :=
    { modifiers := DEFAULT_TOGGLE_MODIFIERS
      logical_key := DEFAULT_TOGGLE_LOGICAL_KEY
      iced_physical_key := DEFAULT_TOGGLE_PHYSICAL_KEY
      rdev_key := iced_key_to_rdev DEFAULT_TOGGLE_PHYSICAL_KEY }
  nextId := 0

/-- The toggle-match condition of the `Message::GlobalEvent` arm:
`matches!(event.event_type, KeyPress(key) if key == rdev_key
&& toggle_modifiers == modifiers)`. -/
def toggleMatches (sc : Shortcut) (modifiers : Modifiers) (ev : EventType) : Bool :=
  match ev with
  | .keyPress key => decide (key = sc.rdev_key ∧ sc.modifiers = modifiers)
  | _ => false

/-- The four synthetic key events of `Message::SimulatePaste`, in source
order. -/
def simulatePasteSeq : List EventType :=
  [ .keyPress .controlLeft
  , .keyPress .keyV
  , .keyRelease .keyV
  , .keyRelease .controlLeft ]

/-- The body of the detached `SimulatePaste` task: each event is injected
in order by `rdev::simulate(&event).unwrap()`, with fixed sleeps around
each call (untimed here).  `ok` tells whether the OS accepts a given
synthetic event; the source's `.unwrap()` makes the first refusal panic
the task (`none`), abandoning the remaining events. -/
def runSimulatePaste (ok : EventType → Bool) : List EventType → Option (List EventType)
  | [] => some []
  | e :: rest =>
      if ok e then (runSimulatePaste ok rest).map (e :: ·) else none

/-- `App::update`.  Returns `none` on a Rust panic reachable from the
modelled arms (out-of-bounds history indexing). -/
def appUpdate (s : AppState) : Message → Option (AppState × List TaskAction)
  | .historyWindowLoaded id items =>
      if wlookup s.windows id = some (.history .loading) then
        some ({ s with windows := wupdate s.windows id (.history (.loaded 0 items)) }, [])
      else
        some (s, [])
  | .openSettingsWindow =>
      let id := s.nextId
      some ({ s with
                windows := winsert s.windows id (.settings (SettingsState.new s.toggle_shortcut))
                nextId := s.nextId + 1 },
            [.eff (.openWindow id), .eff (.gainFocus id)])
  | .requestWindowClose id => some (s, [.eff (.icedClose id)])
  | .windowClose id => some ({ s with windows := wremove s.windows id }, [])
  | .looseFocus id =>
      match wlookup s.windows id with
      | some (.history _) => some (s, [.msg (.requestWindowClose id)])
      | _ => some (s, [])
  | .exitApp => some (s, [.eff .exitProcess])
  | .clipboardEvent =>
      match s.clipboard with
      | some text => some (s, [.eff (.dbAdd text)])
      | none => some (s, [])
  | .requestPaste item =>
      some (s, [.msg .requestCloseHistoryWindow, .msg (.setClipboardItem item),
                .msg .simulatePaste])
  | .setClipboardItem item =>
      some ({ s with clipboard := some item.data },
            [.eff (.clipboardSet item.data), .eff (.dbDelete item.id)])
  | .simulatePaste => some (s, simulatePasteSeq.map (.eff <| .simulate ·))
  | .historyWindowEvent window_id m =>
      match wlookup s.windows window_id with
      | some (.history st) =>
          match historyUpdate st m with
          | some (st', acts) =>
              some ({ s with windows := wupdate s.windows window_id (.history st') }, acts)
          | none => none
      | _ => some (s, [])
  | .settingsWindowEvent window_id m =>
      match wlookup s.windows window_id with
      | some (.settings st) =>
          let (st', acts) := settingsUpdate st m
          some ({ s with windows := wupdate s.windows window_id (.settings st') }, acts)
      | _ => some (s, [])
  | .requestCloseHistoryWindow =>
      match get_history_window_id s.windows with
      | some id => some (s, [.msg (.requestWindowClose id)])
      | none => some (s, [])
  | .dbConnection db => some ({ s with db := db }, [])
  | .requestOpenHistoryWindow =>
      let id := s.nextId
      some ({ s with
                windows := winsert s.windows id (.history .loading)
                nextId := s.nextId + 1 },
            [.eff (.openWindow id), .eff (.gainFocus id), .eff (.loadHistory id)])
  | .panicMsg message => some (s, [.eff (.logError message), .msg .exitApp])
  | .globalEvent modifiers ev =>
      if toggleMatches s.toggle_shortcut modifiers ev then
        some (s, [.msg .requestOpenHistoryWindow])
      else
        some (s, [])
  | .appEvent id ev =>
      match wlookup s.windows id with
      | some (.history _) =>
          if (match ev with
              | .keyPressed _ physical_key modifiers =>
                  decide (physical_key = s.toggle_shortcut.iced_physical_key ∧
                          modifiers = s.toggle_shortcut.modifiers)
              | _ => false) then
            some (s, [.msg .requestCloseHistoryWindow])
          else
            match ev with
            | .unfocused => some (s, [.msg (.looseFocus id)])
            | .keyPressed _ physical_key _ =>
                match physical_key with
                | .code .arrowDown =>
                    some (s, [.msg (.historyWindowEvent id (.moveHistoryCursor 1))])
                | .code .arrowUp =>
                    some (s, [.msg (.historyWindowEvent id (.moveHistoryCursor (-1)))])
                | .code .escape => some (s, [.msg .requestCloseHistoryWindow])
                | .code .enter => some (s, [.msg (.historyWindowEvent id .paste)])
                | _ => some (s, [])
            | _ => some (s, [])
      | some (.settings _) =>
          match iced_event_to_shortcut ev with
          | some shortcut =>
              some (s, [.msg (.settingsWindowEvent id (.newShortcutInput shortcut))])
          | none => some (s, [])
      | none => some (s, [])
  | .updateToggleShortcut shortcut =>
      some ({ s with toggle_shortcut := shortcut }, [])

/-- Fuel-indexed driver over an action queue: effects are recorded in
order, a message is replaced by the actions its update produces (placed
before the rest of the queue: chained task parts run before later
queue entries).  `none` is a panic or fuel exhaustion. -/
def runActs : Nat → AppState → List TaskAction → List Effect → Option (AppState × List Effect)
  | _, s, [], acc => some (s, acc.reverse)
  | fuel + 1, s, .eff e :: rest, acc => runActs fuel s rest (e :: acc)
  | fuel + 1, s, .msg m :: rest, acc =>
      match appUpdate s m with
      | some (s', acts) => runActs fuel s' (acts ++ rest) acc
      | none => none
  | 0, _, _ :: _, _ => none

/-- Run a list of messages from a state, collecting the effect trace. -/
def runMsgs (fuel : Nat) (s : AppState) (msgs : List Message) :
    Option (AppState × List Effect) :=
  runActs fuel s (msgs.map .msg) []

/-- Number of live History windows in the window map. -/
def historyCount (ws : List (Nat × Window)) : Nat :=
  (ws.filter fun p => match p.2 with | .history _ => true | _ => false).length

/-- Number of live Settings windows in the window map. -/
def settingsCount (ws : List (Nat × Window)) : Nat :=
  (ws.filter fun p => match p.2 with | .settings _ => true | _ => false).length

/-! ## Helper lemmas -/

theorem wlookup_wupdate (ws : List (Nat × Window)) (id : Nat) (w : Window) :
    wlookup (wupdate ws id w) id = (wlookup ws id).map fun _ => w := by
  induction ws with
  | nil => rfl
  | cons p rest ih =>
      obtain ⟨k, w0⟩ := p
      by_cases hk : k = id <;> simp [wlookup, wupdate, hk, ih]

/-! ## C1: operations on an empty Loaded history -/

/-- **C1** (code bug witness): on a `Loaded` history with an empty items
list, `MoveHistoryCursor` is not a no-op — the upper-bound branch assigns
`items.len() as i32 - 1 = -1` to the cursor — and `Paste` indexes
`items[0]` on an empty `Vec`, which panics (modelled as `none`), instead
of being a silent no-op. -/
theorem empty_history_not_noop :
    historyUpdate (.loaded 0 []) (.moveHistoryCursor 1) = some (.loaded (-1) [], []) ∧
    historyUpdate (.loaded 0 []) (.moveHistoryCursor (-1)) = some (.loaded (-1) [], []) ∧
    historyUpdate (.loaded 0 []) .paste = none := by
  refine ⟨by decide, by decide, by decide⟩

/-! ## C6: cursor clamping on a non-empty Loaded history -/

/-- **C6**: for a `Loaded` history with non-empty items,
`MoveHistoryCursor(direction)` sets the cursor to
`clamp(cursor + direction, 0, len - 1)` — a hard clamp, no wrap-around —
and performs no I/O. -/
theorem moveCursor_hard_clamp (c d : Int) (items : List Entry) (h : items ≠ []) :
    historyUpdate (.loaded c items) (.moveHistoryCursor d) =
      some (.loaded (max 0 (min (c + d) ((items.length : Int) - 1))) items, []) := by
  have hlen : 0 < (items.length : Int) := by exact_mod_cast List.length_pos.mpr h
  have key : (if (items.length : Int) ≤ (if c + d < 0 then 0 else c + d)
        then (items.length : Int) - 1 else if c + d < 0 then 0 else c + d) =
      max 0 (min (c + d) ((items.length : Int) - 1)) := by omega
  simp only [historyUpdate, key]

/-- Five concrete history entries used by witnesses. -/
def items5 : List Entry :=
  [⟨1, "a", 1⟩, ⟨2, "b", 2⟩, ⟨3, "c", 3⟩, ⟨4, "d", 4⟩, ⟨5, "e", 5⟩]

/-- Witness for C6: with `len = 5`, `MoveCursor(-1)` from cursor 0 stays
at 0 and `MoveCursor(+1)` from cursor 4 stays at 4. -/
theorem moveCursor_hard_clamp_witness :
    historyUpdate (.loaded 0 items5) (.moveHistoryCursor (-1)) =
      some (.loaded 0 items5, []) ∧
    historyUpdate (.loaded 4 items5) (.moveHistoryCursor 1) =
      some (.loaded 4 items5, []) := by
  constructor
  · exact (moveCursor_hard_clamp 0 (-1) items5 (by decide)).trans (by decide)
  · exact (moveCursor_hard_clamp 4 1 items5 (by decide)).trans (by decide)

/-! ## C2: window-per-kind uniqueness -/

/-- **C2** (amended): neither open request checks for an existing
instance.  `RequestOpenHistoryWindow` unconditionally inserts a fresh
History window and `OpenSettingsWindow` unconditionally inserts a fresh
Settings window, so each request while a window of that kind is live
increases the number of live windows of that kind. -/
theorem open_requests_unguarded (s : AppState)
    (hfresh : wlookup s.windows s.nextId = none) :
    (appUpdate s .requestOpenHistoryWindow).map (fun r => historyCount r.1.windows) =
      some (historyCount s.windows + 1) ∧
    (appUpdate s .openSettingsWindow).map (fun r => settingsCount r.1.windows) =
      some (settingsCount s.windows + 1) := by
  constructor <;>
    simp [appUpdate, winsert, hfresh, historyCount, settingsCount, List.filter_append]

/-- Counterexample to C2 as stated: from the initial state, two global
presses of the default toggle shortcut (Alt held, F9 pressed) reach a
state with two live History windows, and two `OpenSettingsWindow`
requests reach a state with two live Settings windows. -/
theorem window_proliferation_cex :
    (runMsgs 30 appInit
        [.globalEvent ⟨false, true, false, false⟩ (.keyPress .f9),
         .globalEvent ⟨false, true, false, false⟩ (.keyPress .f9)]).map
      (fun r => historyCount r.1.windows) = some 2 ∧
    (runMsgs 30 appInit [.openSettingsWindow, .openSettingsWindow]).map
      (fun r => settingsCount r.1.windows) = some 2 := by
  refine ⟨by decide, by decide⟩

/-- Witness for the amended C2: a second open request on a state that
already holds one History window yields two, and similarly for
Settings. -/
theorem open_requests_unguarded_witness :
    (appUpdate { appInit with windows := [(0, .history .loading)], nextId := 1 }
        .requestOpenHistoryWindow).map (fun r => historyCount r.1.windows) = some 2 ∧
    (appUpdate { appInit with
          windows := [(0, .settings (SettingsState.new appInit.toggle_shortcut))],
          nextId := 1 }
        .openSettingsWindow).map (fun r => settingsCount r.1.windows) = some 2 := by
  constructor
  · exact ((open_requests_unguarded
      { appInit with windows := [(0, .history .loading)], nextId := 1 }
      (by decide)).1).trans (by decide)
  · exact ((open_requests_unguarded
      { appInit with
          windows := [(0, .settings (SettingsState.new appInit.toggle_shortcut))],
          nextId := 1 }
      (by decide)).2).trans (by decide)

/-! ## C9: modifier tracking -/

/-- The Ctrl variants recognized by the tracking match
(`ControlLeft | ControlRight`). -/
def isCtrlVar : RdevKey → Bool
  | .controlLeft => true
  | .controlRight => true
  | _ => false

/-- The Alt variants recognized by the tracking match (`Alt` only; the
source has no `AltGr` arm). -/
def isAltVar : RdevKey → Bool
  | .alt => true
  | _ => false

/-- The Shift variants recognized by the tracking match
(`ShiftLeft | ShiftRight`). -/
def isShiftVar : RdevKey → Bool
  | .shiftLeft => true
  | .shiftRight => true
  | _ => false

/-- The Meta variants recognized by the tracking match
(`MetaLeft | MetaRight`). -/
def isLogoVar : RdevKey → Bool
  | .metaLeft => true
  | .metaRight => true
  | _ => false

/-- One flag's evolution under one event: a press of a recognized variant
sets it, a release of a recognized variant clears it unconditionally,
anything else leaves it. -/
def flagStep (isVar : RdevKey → Bool) (b : Bool) : EventType → Bool
  | .keyPress k => if isVar k then true else b
  | .keyRelease k => if isVar k then false else b
  | _ => b

/-- Spec-side full key-state tracking: which physical keys are currently
held after replaying a sequence (a key is held iff its most recent
press/release event is a press). -/
def heldStep (held : RdevKey → Bool) : EventType → RdevKey → Bool
  | .keyPress k => fun k2 => if k2 = k then true else held k2
  | .keyRelease k => fun k2 => if k2 = k then false else held k2
  | _ => held

/-- Spec-side: keys held after replaying a sequence from the all-released
start state. -/
def heldAfter (seq : List EventType) : RdevKey → Bool :=
  seq.foldl heldStep fun _ => false

/-- Spec-side reading of the claim: the set of currently held modifier
keys, with left and right variants of Ctrl, Alt, Shift and Meta treated
as equivalent (in `rdev`, the right Alt variant is `AltGr`). -/
def heldModifiers (seq : List EventType) : Modifiers where
  ctrl := heldAfter seq .controlLeft || heldAfter seq .controlRight
  alt := heldAfter seq .alt || heldAfter seq .altGr
  shift := heldAfter seq .shiftLeft || heldAfter seq .shiftRight
  logo := heldAfter seq .metaLeft || heldAfter seq .metaRight

theorem trackModifiers_ctrl (m : Modifiers) (e : EventType) :
    (trackModifiers m e).ctrl = flagStep isCtrlVar m.ctrl e := by
  cases e with
  | keyPress k => cases k <;> rfl
  | keyRelease k => cases k <;> rfl
  | buttonPress => rfl
  | buttonRelease => rfl
  | mouseMove => rfl
  | wheel => rfl

theorem trackModifiers_alt (m : Modifiers) (e : EventType) :
    (trackModifiers m e).alt = flagStep isAltVar m.alt e := by
  cases e with
  | keyPress k => cases k <;> rfl
  | keyRelease k => cases k <;> rfl
  | buttonPress => rfl
  | buttonRelease => rfl
  | mouseMove => rfl
  | wheel => rfl

theorem trackModifiers_shift (m : Modifiers) (e : EventType) :
    (trackModifiers m e).shift = flagStep isShiftVar m.shift e := by
  cases e with
  | keyPress k => cases k <;> rfl
  | keyRelease k => cases k <;> rfl
  | buttonPress => rfl
  | buttonRelease => rfl
  | mouseMove => rfl
  | wheel => rfl

theorem trackModifiers_logo (m : Modifiers) (e : EventType) :
    (trackModifiers m e).logo = flagStep isLogoVar m.logo e := by
  cases e with
  | keyPress k => cases k <;> rfl
  | keyRelease k => cases k <;> rfl
  | buttonPress => rfl
  | buttonRelease => rfl
  | mouseMove => rfl
  | wheel => rfl

/-- **C9** (amended): after replaying any event sequence, each tracked
modifier flag equals the fold of `flagStep` over that modifier's
recognized variant keys: a press of a variant sets the flag and a release
of a variant clears it unconditionally (so releasing one variant while
the other is still held clears the flag), and the recognized variants are
ControlLeft/ControlRight, ShiftLeft/ShiftRight, MetaLeft/MetaRight, and
for Alt only the plain `Alt` key — `AltGr` is not tracked. -/
theorem modifier_replay_flagwise (seq : List EventType) (m : Modifiers) :
    seq.foldl trackModifiers m =
      ⟨seq.foldl (flagStep isCtrlVar) m.ctrl, seq.foldl (flagStep isAltVar) m.alt,
       seq.foldl (flagStep isShiftVar) m.shift, seq.foldl (flagStep isLogoVar) m.logo⟩ := by
  induction seq generalizing m with
  | nil => rfl
  | cons e t ih =>
      simp only [List.foldl_cons, ih, trackModifiers_ctrl, trackModifiers_alt,
        trackModifiers_shift, trackModifiers_logo]

/-- Counterexample to C9 as stated: the tracked set does not always equal
the set of currently held modifier keys.  Pressing ControlLeft, pressing
ControlRight, then releasing ControlLeft leaves ControlRight held but
clears the tracked CTRL flag; and pressing AltGr (the right Alt variant)
holds an Alt key but never sets the tracked ALT flag. -/
theorem modifier_replay_cex :
    List.foldl trackModifiers Modifiers.empty
        [.keyPress .controlLeft, .keyPress .controlRight, .keyRelease .controlLeft] ≠
      heldModifiers
        [.keyPress .controlLeft, .keyPress .controlRight, .keyRelease .controlLeft] ∧
    List.foldl trackModifiers Modifiers.empty [.keyPress .altGr] ≠
      heldModifiers [.keyPress .altGr] := by
  refine ⟨by decide, by decide⟩

/-! ## C3: exact-match toggle detection -/

theorem toggleMatches_iff (sc : Shortcut) (mods : Modifiers) (ev : EventType) :
    toggleMatches sc mods ev = true ↔
      ∃ key, ev = .keyPress key ∧ key = sc.rdev_key ∧ mods = sc.modifiers := by
  cases ev with
  | keyPress k =>
      simp only [toggleMatches, decide_eq_true_eq, EventType.keyPress.injEq]
      constructor
      · rintro ⟨h1, h2⟩; exact ⟨k, rfl, h1, h2.symm⟩
      · rintro ⟨key, hk, h1, h2⟩; cases hk; exact ⟨h1, h2.symm⟩
  | keyRelease k => simp [toggleMatches]
  | buttonPress => simp [toggleMatches]
  | buttonRelease => simp [toggleMatches]
  | mouseMove => simp [toggleMatches]
  | wheel => simp [toggleMatches]

/-- **C3**: with `mods` the modifier set *after* the tracking update for
the event, `GlobalEvent` fires toggle detection (emits the open-history
request) iff the event is a key press of exactly the active shortcut's
`rdev` key with `mods` exactly equal to the shortcut's modifier set; and
whenever the resulting modifier set is a strict superset of the
shortcut's (an extra modifier held), it does not fire. -/
theorem toggle_detection_exact (s : AppState) (m : Modifiers) (ev : EventType) :
    (appUpdate s (.globalEvent (trackModifiers m ev) ev) =
        some (s, [.msg .requestOpenHistoryWindow]) ↔
      ∃ key, ev = .keyPress key ∧ key = s.toggle_shortcut.rdev_key ∧
        trackModifiers m ev = s.toggle_shortcut.modifiers) ∧
    (s.toggle_shortcut.modifiers.subset (trackModifiers m ev) →
      trackModifiers m ev ≠ s.toggle_shortcut.modifiers →
      appUpdate s (.globalEvent (trackModifiers m ev) ev) = some (s, [])) := by
  have base : ∀ mods, appUpdate s (.globalEvent mods ev) =
      if toggleMatches s.toggle_shortcut mods ev then
        some (s, [.msg .requestOpenHistoryWindow])
      else some (s, []) := fun _ => rfl
  constructor
  · rw [base]
    by_cases h : toggleMatches s.toggle_shortcut (trackModifiers m ev) ev = true
    · rw [if_pos h]
      simpa using (toggleMatches_iff _ _ _).mp h
    · rw [if_neg h]
      constructor
      · intro hbad
        exact absurd (Option.some.inj hbad) (by simp)
      · intro hex
        exact absurd ((toggleMatches_iff _ _ _).mpr hex) h
  · intro _ hne
    have hF : ¬ toggleMatches s.toggle_shortcut (trackModifiers m ev) ev = true := by
      intro hT
      rcases (toggleMatches_iff _ _ _).mp hT with ⟨key, _, _, hmods⟩
      exact hne hmods
    rw [base, if_neg hF]

/-- Witness for C3 (the spec's own example): active shortcut Alt+F9;
pressing F9 while Ctrl and Alt are both held (modifiers after update a
strict superset of `{Alt}`) does not fire, while pressing F9 with exactly
Alt held does. -/
theorem toggle_detection_exact_witness :
    appUpdate appInit
        (.globalEvent (trackModifiers ⟨true, true, false, false⟩ (.keyPress .f9))
          (.keyPress .f9)) = some (appInit, []) ∧
    appUpdate appInit
        (.globalEvent (trackModifiers ⟨false, true, false, false⟩ (.keyPress .f9))
          (.keyPress .f9)) = some (appInit, [.msg .requestOpenHistoryWindow]) := by
  constructor
  · exact (toggle_detection_exact appInit ⟨true, true, false, false⟩ (.keyPress .f9)).2
      (by decide) (by decide)
  · exact (toggle_detection_exact appInit ⟨false, true, false, false⟩ (.keyPress .f9)).1.mpr
      ⟨.f9, rfl, by decide, by decide⟩

/-! ## C5: stale HistoryLoaded completions -/

/-- **C5**: a `HistoryWindowLoaded(id, items)` completion is applied — the
window becomes `Loaded` with cursor 0 — only when window `id` is still
present and still `Loading`; in every other case (window closed, window
already `Loaded`, id reused by a non-Loading window) the whole state is
left unchanged, and once applied, a second completion for the same id
changes nothing, so `Loaded` replaces `Loading` at most once. -/
theorem history_loaded_stale_guard (s : AppState) (id : Nat)
    (items items2 : List Entry) :
    (wlookup s.windows id = some (.history .loading) →
      appUpdate s (.historyWindowLoaded id items) =
        some ({ s with windows := wupdate s.windows id (.history (.loaded 0 items)) }, [])) ∧
    (wlookup s.windows id ≠ some (.history .loading) →
      appUpdate s (.historyWindowLoaded id items) = some (s, [])) ∧
    (appUpdate { s with windows := wupdate s.windows id (.history (.loaded 0 items)) }
        (.historyWindowLoaded id items2) =
      some ({ s with windows := wupdate s.windows id (.history (.loaded 0 items)) }, [])) := by
  refine ⟨fun h => by simp [appUpdate, h], fun h => by simp [appUpdate, h], ?_⟩
  cases h : wlookup s.windows id <;>
    simp [appUpdate, wlookup_wupdate, h]

/-- Witness for C5: a completion lands on a still-Loading window and is
applied; a completion addressed to a closed (absent) window leaves the
initial state untouched; a second completion after the first is ignored. -/
theorem history_loaded_stale_guard_witness :
    appUpdate { appInit with windows := [(0, .history .loading)] }
        (.historyWindowLoaded 0 items5) =
      some ({ appInit with windows := [(0, .history (.loaded 0 items5))] }, []) ∧
    appUpdate appInit (.historyWindowLoaded 0 items5) = some (appInit, []) := by
  constructor
  · exact ((history_loaded_stale_guard { appInit with windows := [(0, .history .loading)] }
      0 items5 []).1 (by decide)).trans (by decide)
  · exact (history_loaded_stale_guard appInit 0 items5 []).2.1 (by decide)

/-! ## C8: synthetic key-injection failure -/

theorem runSimulatePaste_isSome (ok : EventType → Bool) (l : List EventType) :
    (runSimulatePaste ok l).isSome ↔ ∀ e ∈ l, ok e = true := by
  induction l with
  | nil => simp [runSimulatePaste]
  | cons e rest ih =>
      by_cases h : ok e = true <;> simp [runSimulatePaste, h, ih]

/-- **C8** (amended): the `SimulatePaste` handler never changes the
application state (the clipboard was already set by the preceding
`SetClipboardItem` step), and the detached injection task completes iff
the OS accepts every one of the four synthetic events: the source's
`rdev::simulate(&event).unwrap()` panics the task on the first refusal,
aborting the remaining steps — the failure is not logged-and-swallowed. -/
theorem simulate_failure_panics (s : AppState) (ok : EventType → Bool) :
    (appUpdate s .simulatePaste).map Prod.fst = some s ∧
    ((runSimulatePaste ok simulatePasteSeq).isSome ↔
      ∀ e ∈ simulatePasteSeq, ok e = true) := by
  exact ⟨rfl, runSimulatePaste_isSome ok simulatePasteSeq⟩

/-- Counterexample to C8 as stated: when the OS refuses the synthetic
events, the paste task panics (`none`) rather than swallowing the failure
and completing; with no refusal it completes the four-step sequence. -/
theorem simulate_failure_cex :
    runSimulatePaste (fun _ => false) simulatePasteSeq = none ∧
    runSimulatePaste (fun _ => true) simulatePasteSeq = some simulatePasteSeq := by
  refine ⟨by decide, by decide⟩

/-! ## C4: strict ordering of the paste-selection flow -/

/-- **C4**: `Paste` on a Loaded non-empty history (valid cursor) produces,
in strict order: (1) the close of the History window, (2) the clipboard
write of the selected entry's text, (3) the storage delete of that
entry's identifier, and (4) the four synthetic key steps Ctrl-down,
V-down, V-up, Ctrl-up — and the only state change is the modelled
clipboard now holding the entry's text. -/
theorem paste_selected_strict_order (s : AppState) (id : Nat) (c : Int)
    (items : List Entry) (item : Entry)
    (hw : s.windows = [(id, .history (.loaded c items))])
    (hc : 0 ≤ c)
    (hit : items[c.toNat]? = some item) :
    runMsgs 20 s [.historyWindowEvent id .paste] =
      some ({ s with clipboard := some item.data },
        [.icedClose id, .clipboardSet item.data, .dbDelete item.id,
         .simulate (.keyPress .controlLeft), .simulate (.keyPress .keyV),
         .simulate (.keyRelease .keyV), .simulate (.keyRelease .controlLeft)]) := by
  have hc0 : ¬ c < 0 := not_lt.mpr hc
  obtain ⟨clip, ws, db, tsc, nid⟩ := s
  simp only [AppState.mk.injEq] at hw ⊢
  subst hw
  simp [runMsgs, runActs, appUpdate, historyUpdate, wlookup, wupdate,
        get_history_window_id, hc0, hit, simulatePasteSeq]

/-- Witness for C4 (the spec's end-to-end scenario): items
`[{id 2, "b"}, {id 1, "a"}]` (descending by time), cursor 0: the popup
close, the clipboard set to "b", the delete of id 2 and the four key
steps are issued in exactly that order. -/
theorem paste_selected_strict_order_witness :
    runMsgs 20
        { appInit with windows := [(5, .history (.loaded 0 [⟨2, "b", 2⟩, ⟨1, "a", 1⟩]))] }
        [.historyWindowEvent 5 .paste] =
      some ({ appInit with
                windows := [(5, .history (.loaded 0 [⟨2, "b", 2⟩, ⟨1, "a", 1⟩]))],
                clipboard := some "b" },
        [.icedClose 5, .clipboardSet "b", .dbDelete 2,
         .simulate (.keyPress .controlLeft), .simulate (.keyPress .keyV),
         .simulate (.keyRelease .keyV), .simulate (.keyRelease .controlLeft)]) := by
  exact (paste_selected_strict_order
      { appInit with windows := [(5, .history (.loaded 0 [⟨2, "b", 2⟩, ⟨1, "a", 1⟩]))] }
      5 0 [⟨2, "b", 2⟩, ⟨1, "a", 1⟩] ⟨2, "b", 2⟩ rfl (by decide) (by decide)).trans
    (by decide)

/-! ## C7: shortcut capture round-trip -/

/-- **C7**: with a Settings window in `Listening`, a key press on it
overwrites the pending shortcut with the current modifier set plus the
just-pressed key, and toggling the selection off commits the pending
shortcut both in the window state and — via `UpdateToggleShortcut`,
processed synchronously by the driver before any later message — as the
application-wide active shortcut; a key release updates nothing; after
the commit, a press exactly matching the new shortcut fires toggle
detection and a press of any differing prior shortcut does not. -/
theorem shortcut_capture_roundtrip (s : AppState) (sid : Nat) (st0 : SettingsState)
    (p0 : Shortcut) (lk : LogicalKey) (pk : PhysicalKey) (mods : Modifiers)
    (hw : s.windows = [(sid, .settings st0)])
    (hl : st0.shortcut_selection_state = .listening p0) :
    runMsgs 30 s
        [.appEvent sid (.keyPressed lk pk mods),
         .settingsWindowEvent sid .toggleShortcutSelection] =
      some ({ s with
                windows := [(sid, .settings
                  ⟨⟨mods, lk, pk, iced_key_to_rdev pk⟩, .notListening⟩)],
                toggle_shortcut := ⟨mods, lk, pk, iced_key_to_rdev pk⟩ }, []) ∧
    appUpdate s (.appEvent sid (.keyReleased lk pk mods)) = some (s, []) ∧
    appUpdate
        { s with
            windows := [(sid, .settings
              ⟨⟨mods, lk, pk, iced_key_to_rdev pk⟩, .notListening⟩)],
            toggle_shortcut := ⟨mods, lk, pk, iced_key_to_rdev pk⟩ }
        (.globalEvent mods (.keyPress (iced_key_to_rdev pk))) =
      some ({ s with
                windows := [(sid, .settings
                  ⟨⟨mods, lk, pk, iced_key_to_rdev pk⟩, .notListening⟩)],
                toggle_shortcut := ⟨mods, lk, pk, iced_key_to_rdev pk⟩ },
            [.msg .requestOpenHistoryWindow]) ∧
    (∀ old : Shortcut, old.rdev_key ≠ iced_key_to_rdev pk ∨ old.modifiers ≠ mods →
      appUpdate
          { s with
              windows := [(sid, .settings
                ⟨⟨mods, lk, pk, iced_key_to_rdev pk⟩, .notListening⟩)],
              toggle_shortcut := ⟨mods, lk, pk, iced_key_to_rdev pk⟩ }
          (.globalEvent old.modifiers (.keyPress old.rdev_key)) =
        some ({ s with
                  windows := [(sid, .settings
                    ⟨⟨mods, lk, pk, iced_key_to_rdev pk⟩, .notListening⟩)],
                  toggle_shortcut := ⟨mods, lk, pk, iced_key_to_rdev pk⟩ }, [])) := by
  obtain ⟨clip, ws, db, tsc, nid⟩ := s
  obtain ⟨tsc0, sel0⟩ := st0
  simp only [AppState.mk.injEq] at hw ⊢
  subst hw
  simp only at hl
  subst hl
  refine ⟨?_, ?_, ?_, ?_⟩
  · simp [runMsgs, runActs, appUpdate, settingsUpdate, iced_event_to_shortcut,
          wlookup, wupdate]
  · simp [appUpdate, iced_event_to_shortcut, wlookup]
  · simp [appUpdate, toggleMatches]
  · intro old hne
    have hF : toggleMatches ⟨mods, lk, pk, iced_key_to_rdev pk⟩ old.modifiers
        (.keyPress old.rdev_key) = false := by
      rcases hne with h | h <;> simp [toggleMatches] <;> intro h2 <;>
        first
          | exact absurd h2 h
          | (intro h3; exact absurd h3.symm h)
    simp [appUpdate, hF]

/-- Witness for C7 (the spec's example): Settings window Listening,
pressing Ctrl+K then toggling off commits {Ctrl}+K; a subsequent exact
Ctrl+K press fires toggle detection and the prior Alt+F9 shortcut no
longer matches. -/
theorem shortcut_capture_roundtrip_witness :
    runMsgs 30
        { appInit with windows := [(3, .settings
            ⟨appInit.toggle_shortcut, .listening appInit.toggle_shortcut⟩)] }
        [.appEvent 3 (.keyPressed (.character "k") (.code .keyK) ⟨true, false, false, false⟩),
         .settingsWindowEvent 3 .toggleShortcutSelection] =
      some ({ appInit with
                windows := [(3, .settings
                  ⟨⟨⟨true, false, false, false⟩, .character "k", .code .keyK,
                      iced_key_to_rdev (.code .keyK)⟩, .notListening⟩)],
                toggle_shortcut := ⟨⟨true, false, false, false⟩, .character "k",
                  .code .keyK, iced_key_to_rdev (.code .keyK)⟩ }, []) ∧
    appUpdate
        { appInit with
            windows := [(3, .settings
              ⟨⟨⟨true, false, false, false⟩, .character "k", .code .keyK,
                  iced_key_to_rdev (.code .keyK)⟩, .notListening⟩)],
            toggle_shortcut := ⟨⟨true, false, false, false⟩, .character "k",
              .code .keyK, iced_key_to_rdev (.code .keyK)⟩ }
        (.globalEvent ⟨true, false, false, false⟩
          (.keyPress (iced_key_to_rdev (.code .keyK)))) =
      some ({ appInit with
                windows := [(3, .settings
                  ⟨⟨⟨true, false, false, false⟩, .character "k", .code .keyK,
                      iced_key_to_rdev (.code .keyK)⟩, .notListening⟩)],
                toggle_shortcut := ⟨⟨true, false, false, false⟩, .character "k",
                  .code .keyK, iced_key_to_rdev (.code .keyK)⟩ },
            [.msg .requestOpenHistoryWindow]) ∧
    appUpdate
        { appInit with
            windows := [(3, .settings
              ⟨⟨⟨true, false, false, false⟩, .character "k", .code .keyK,
                  iced_key_to_rdev (.code .keyK)⟩, .notListening⟩)],
            toggle_shortcut := ⟨⟨true, false, false, false⟩, .character "k",
              .code .keyK, iced_key_to_rdev (.code .keyK)⟩ }
        (.globalEvent appInit.toggle_shortcut.modifiers
          (.keyPress appInit.toggle_shortcut.rdev_key)) =
      some ({ appInit with
                windows := [(3, .settings
                  ⟨⟨⟨true, false, false, false⟩, .character "k", .code .keyK,
                      iced_key_to_rdev (.code .keyK)⟩, .notListening⟩)],
                toggle_shortcut := ⟨⟨true, false, false, false⟩, .character "k",
                  .code .keyK, iced_key_to_rdev (.code .keyK)⟩ }, []) := by
  obtain ⟨h1, _, h3, h4⟩ := shortcut_capture_roundtrip
    { appInit with windows := [(3, .settings
        ⟨appInit.toggle_shortcut, .listening appInit.toggle_shortcut⟩)] }
    3 ⟨appInit.toggle_shortcut, .listening appInit.toggle_shortcut⟩
    appInit.toggle_shortcut (.character "k") (.code .keyK) ⟨true, false, false, false⟩
    rfl rfl
  exact ⟨h1, h3, h4 appInit.toggle_shortcut (by decide)⟩

/-! ## C10: ownership of the active toggle shortcut -/

theorem settingsUpdate_emits (st : SettingsState) (m : SettingsMsg) (sc : Shortcut)
    (h : TaskAction.msg (.updateToggleShortcut sc) ∈ (settingsUpdate st m).2) :
    m = .toggleShortcutSelection ∧ st.shortcut_selection_state = .listening sc := by
  cases m <;> cases hs : st.shortcut_selection_state <;>
    (simp [settingsUpdate, hs] at h; try simp [hs, h])

theorem historyUpdate_no_toggle_emit (st : HistoryState) (m : HistoryMsg)
    (r : HistoryState × List TaskAction) (sc : Shortcut)
    (h : historyUpdate st m = some r) :
    TaskAction.msg (.updateToggleShortcut sc) ∉ r.2 := by
  intro hm
  cases st <;> cases m <;> simp only [historyUpdate] at h <;>
    (repeat' split at h) <;>
    first
      | exact Option.noConfusion h
      | (obtain ⟨rfl⟩ := Option.some.inj h; simp at hm)

theorem toggle_preserved (s : AppState) (msg : Message) (r : AppState × List TaskAction)
    (hne : ∀ sc, msg ≠ .updateToggleShortcut sc)
    (h : appUpdate s msg = some r) : r.1.toggle_shortcut = s.toggle_shortcut := by
  obtain ⟨r1, r2⟩ := r
  cases msg <;>
    first
      | exact absurd rfl (hne _)
      | (simp only [appUpdate] at h
         repeat' split at h
         all_goals first
           | exact Option.noConfusion h
           | (simp only [Option.some.injEq, Prod.mk.injEq] at h
              obtain ⟨rfl, rfl⟩ := h
              rfl))

theorem toggle_update_provenance (s : AppState) (msg : Message)
    (r : AppState × List TaskAction) (sc : Shortcut)
    (h : appUpdate s msg = some r)
    (hm : TaskAction.msg (.updateToggleShortcut sc) ∈ r.2) :
    ∃ id st, msg = .settingsWindowEvent id .toggleShortcutSelection ∧
      wlookup s.windows id = some (.settings st) ∧
      st.shortcut_selection_state = .listening sc := by
  obtain ⟨r1, r2⟩ := r
  cases msg with
  | settingsWindowEvent id m =>
      simp only [appUpdate] at h
      rcases hwl : wlookup s.windows id with _ | w
      · simp only [hwl, Option.some.injEq, Prod.mk.injEq] at h
        obtain ⟨rfl, rfl⟩ := h
        simp at hm
      · cases w with
        | history hs =>
            simp only [hwl, Option.some.injEq, Prod.mk.injEq] at h
            obtain ⟨rfl, rfl⟩ := h
            simp at hm
        | settings st =>
            simp only [hwl, Option.some.injEq, Prod.mk.injEq] at h
            obtain ⟨rfl, rfl⟩ := h
            have hse := settingsUpdate_emits st m sc hm
            exact ⟨id, st, by rw [hse.1], hwl, hse.2⟩
  | historyWindowEvent id m =>
      simp only [appUpdate] at h
      rcases hwl : wlookup s.windows id with _ | w
      · simp only [hwl, Option.some.injEq, Prod.mk.injEq] at h
        obtain ⟨rfl, rfl⟩ := h
        simp at hm
      · cases w with
        | settings st =>
            simp only [hwl, Option.some.injEq, Prod.mk.injEq] at h
            obtain ⟨rfl, rfl⟩ := h
            simp at hm
        | history hs =>
            simp only [hwl] at h
            rcases hhu : historyUpdate hs m with _ | ⟨st2, acts⟩
            · rw [hhu] at h
              exact Option.noConfusion h
            · simp only [hhu, Option.some.injEq, Prod.mk.injEq] at h
              obtain ⟨rfl, rfl⟩ := h
              exact absurd hm (historyUpdate_no_toggle_emit _ _ _ sc hhu)
  | _ =>
      simp only [appUpdate] at h
      repeat' split at h
      all_goals first
        | exact Option.noConfusion h
        | (simp only [Option.some.injEq, Prod.mk.injEq] at h
           obtain ⟨rfl, rfl⟩ := h
           simp [simulatePasteSeq] at hm)

/-- **C10**: at startup the active toggle shortcut is Alt+F9 (modifier
set containing only Alt, physical key F9, `rdev` key F9);
`UpdateToggleShortcut` replaces it wholesale; no other message changes
it; and an `UpdateToggleShortcut` message is only ever emitted by a
committed shortcut capture (a `ToggleShortcutSelection` on a Settings
window in `Listening` on the committed shortcut). -/
theorem toggle_shortcut_ownership :
    appInit.toggle_shortcut =
      ⟨⟨false, true, false, false⟩, .named .f9, .code .f9, .f9⟩ ∧
    (∀ (s : AppState) (sc : Shortcut),
      appUpdate s (.updateToggleShortcut sc) =
        some ({ s with toggle_shortcut := sc }, [])) ∧
    (∀ (s : AppState) (msg : Message) (r : AppState × List TaskAction),
      (∀ sc, msg ≠ .updateToggleShortcut sc) →
      appUpdate s msg = some r → r.1.toggle_shortcut = s.toggle_shortcut) ∧
    (∀ (s : AppState) (msg : Message) (r : AppState × List TaskAction) (sc : Shortcut),
      appUpdate s msg = some r →
      TaskAction.msg (.updateToggleShortcut sc) ∈ r.2 →
      ∃ id st, msg = .settingsWindowEvent id .toggleShortcutSelection ∧
        wlookup s.windows id = some (.settings st) ∧
        st.shortcut_selection_state = .listening sc) :=
  ⟨by decide, fun _ _ => rfl, toggle_preserved, toggle_update_provenance⟩

/-- Witness for C10: a message other than `UpdateToggleShortcut` (a db
connection arriving) leaves the default shortcut in place, and a
committed capture on a Listening Settings window is a concrete producer
of `UpdateToggleShortcut`. -/
theorem toggle_shortcut_ownership_witness :
    (({ appInit with db := .connected 1 }, ([] : List TaskAction)).1.toggle_shortcut =
      appInit.toggle_shortcut) ∧
    (∃ id st, (Message.settingsWindowEvent 3 .toggleShortcutSelection) =
        .settingsWindowEvent id .toggleShortcutSelection ∧
      wlookup [(3, Window.settings
          ⟨appInit.toggle_shortcut, .listening appInit.toggle_shortcut⟩)] id =
        some (.settings st) ∧
      st.shortcut_selection_state = .listening appInit.toggle_shortcut) := by
  constructor
  · exact toggle_shortcut_ownership.2.2.1 appInit (.dbConnection (.connected 1))
      ({ appInit with db := .connected 1 }, []) (fun sc => by simp) rfl
  · exact toggle_shortcut_ownership.2.2.2
      { appInit with windows := [(3, .settings
          ⟨appInit.toggle_shortcut, .listening appInit.toggle_shortcut⟩)] }
      (.settingsWindowEvent 3 .toggleShortcutSelection)
      ({ appInit with windows := [(3, .settings
          ⟨appInit.toggle_shortcut, .notListening⟩)] },
        [.msg (.updateToggleShortcut appInit.toggle_shortcut)])
      appInit.toggle_shortcut (by decide) (by decide)
